import Mathlib

/-
Verification development for the Flexpress LDflex client
(src/src/LdFlexClient.js).

The JavaScript component is embedded shallowly:
  * React `useState` slots and the module-level globals (`gLdfQryCtx`,
    `grSubjects`, `grSubjectProperties`) become the fields of `ClientState`.
  * Within one event handler React state reads see the render-time value
    and the last `setX(value)` call wins; the embedding therefore threads
    the state sequentially through each operation, reading the staleness
    value captured at entry (exactly what the JS closures do).
  * The external collaborators (the WHATWG `URL` parser, `JSON.parse`, the
    LDflex/Comunica resolver and its async iterators) are abstracted into
    an `Env` of oracles; a drain is a pair: the values yielded, then
    `none` for normal completion or `some e` for a throw of message `e`.
  * Thrown JS exceptions become `Except` values carrying the state as
    mutated up to the throw point; a `try/catch` becomes a `match`.
  * The JS bitmask constants stay `Nat`; crucially, the source tests the
    flags with logical `&&` (`ldfQryCtxStale && QC_STALE_SOURCE_CHANGED`),
    which in JS is truthy whenever both operands are nonzero.  That test
    is embedded faithfully as `jsAndTruthy`.
-/

namespace Flexpress

/-- Staleness bit for a changed data source (JS constant 4). -/
def QC_STALE_SOURCE_CHANGED : Nat := 4

/-- Staleness bit for a changed JSON-LD context (JS constant 2). -/
def QC_STALE_CONTEXT_CHANGED : Nat := 2

/-- Staleness bit for a changed subject (JS constant 1). -/
def QC_STALE_SUBJECT_CHANGED : Nat := 1

/-- The valid (no staleness) state (JS constant 0). -/
def QC_VALID : Nat := 0

/-- JS truthiness of a number: any nonzero value is truthy. -/
def jsTruthy (n : Nat) : Bool := n != 0

/-- The JS expression `a && b` used as an `if` condition: truthy iff both
numbers are nonzero.  This is what lines such as
`if (ldfQryCtxStale && QC_STALE_SOURCE_CHANGED)` actually compute — a
logical AND, not the bitwise `&` a bitmask test would need. -/
def jsAndTruthy (a b : Nat) : Bool := jsTruthy a && jsTruthy b

/-- The whitespace characters stripped by the JS `trim()` built-in (the
ASCII ones that can occur in the form inputs). -/
def jsIsWs (c : Char) : Bool := c == ' ' || c == '\t' || c == '\n' || c == '\r'

/-- The JS `String.prototype.trim` built-in: strip whitespace from both
ends.  (Defined over the character list so that concrete inputs evaluate
inside the kernel.) -/
def jsTrim (s : String) : String :=
  ⟨((s.data.dropWhile jsIsWs).reverse.dropWhile jsIsWs).reverse⟩

/-- The JS `String.prototype.startsWith` built-in. -/
def jsStartsWith (s p : String) : Bool := p.data.isPrefixOf s.data

/-- `new ComunicaEngine(source)`: the engine records the source it was
built from. -/
structure Engine where
  source : String
deriving DecidableEq

/-- `new PathFactory({context, queryEngine})`: records the raw context
text it was built from (`none` when constructed without a context, as the
enumerators do) and the engine reference captured at construction. -/
structure PathFactory where
  context : Option String
  queryEngine : Option Engine
deriving DecidableEq

/-- `pathFactory.create({subject: namedNode(s)})`: records the factory it
came from and the subject string. -/
structure SubjectPath where
  factory : PathFactory
  subject : String
deriving DecidableEq

/-- The module-level global `gLdfQryCtx` with its three slots, all
initially `null`. -/
structure LdfQryCtx where
  queryEngine : Option Engine
  pathFactory : Option PathFactory
  subjectPath : Option SubjectPath
deriving DecidableEq

/-- A chain slot, used to record which slots an operation rebuilt. -/
inductive Slot where
  | engine
  | factory
  | entryPath
deriving DecidableEq

/-- The React state of the `LdFlexClient` component together with the
module-level globals it manipulates. -/
structure ClientState where
  ldfQryCtxStale : Nat
  source : String
  ldfSubject : Option String
  ldfProperty : Option String
  context : String
  ldfDataPath : String
  queryResult : Option (List String)
  status : Option String
  gLdfQryCtx : LdfQryCtx
  grSubjects : List String
  grSubjectProperties : List String
deriving DecidableEq

/-- The external collaborators, abstracted:
`parseUrl s` is `some origin` when `new URL(s)` succeeds with that
`origin` property, `none` when the constructor throws; `parseJson s`
tells whether `JSON.parse(s)` succeeds; each drain field is the behaviour
of the corresponding async iteration — the values yielded, then `none`
for normal completion or `some e` when the iteration throws `e`. -/
structure Env where
  parseUrl : String → Option String
  parseJson : String → Bool
  resolveDrain : List String × Option String
  subjectsDrain : List String × Option String
  propertiesDrain : List String × Option String

/-- `clearQueryResultAndStatus()` (lines 381-384). -/
def clearQueryResultAndStatus (st : ClientState) : ClientState :=
  { st with queryResult := none, status := none }

/-- `clearLdfSubject()` (lines 386-391). -/
def clearLdfSubject (st : ClientState) : ClientState :=
  { st with ldfSubject := none, ldfProperty := none,
            grSubjects := [], grSubjectProperties := [] }

/-- `sourceChangeHandler` (lines 346-351): clears results and subject,
stores the new source text and assigns `QC_STALE_SOURCE_CHANGED` as the
new staleness value. -/
def sourceChangeHandler (v : String) (st : ClientState) : ClientState :=
  { clearLdfSubject (clearQueryResultAndStatus st) with
      source := v, ldfQryCtxStale := QC_STALE_SOURCE_CHANGED }

/-- `contextChangeHandler` (lines 353-357). -/
def contextChangeHandler (v : String) (st : ClientState) : ClientState :=
  { clearQueryResultAndStatus st with
      context := v, ldfQryCtxStale := QC_STALE_CONTEXT_CHANGED }

/-- `lstSubjectChangeHandler` (lines 368-372). -/
def lstSubjectChangeHandler (v : String) (st : ClientState) : ClientState :=
  { clearQueryResultAndStatus st with
      ldfSubject := some v, ldfQryCtxStale := QC_STALE_SUBJECT_CHANGED }

/-- `validateSource()` (lines 246-260).  The outer catch wraps every
failure message in `Invalid source URL: `.  A successfully constructed
JS `URL` object is always truthy, so the `!parsedSourceUrl` disjunct of
line 252 never fires and only the `origin === null-string` test remains. -/
def validateSource (parseUrl : String → Option String) (source : String) :
    Except String String :=
  if jsTrim source = "" then .error "Invalid source URL: Empty string"
  else
    match parseUrl (jsTrim source) with
    | none => .error "Invalid source URL: URL constructor error"
    | some origin =>
      if origin = "null" then .error "Invalid source URL: URL parsing error"
      else .ok (jsTrim source)

/-- One iteration of the result-drain loop of `execQuery` (lines
229-232): `data.add(val.toString())` on a JS `Set`, which keeps insertion
order and ignores an element already present. -/
def collectStep (data : List String) (val : String) : List String :=
  if val ∈ data then data else data ++ [val]

/-- The result-collection of `execQuery` (lines 227-234): drain the
producer into a `Set`, then materialize it with `[...data]`. -/
def resolveAndCollect (produced : List String) : List String :=
  produced.foldl collectStep []

/-- Specification-side description of dedup-on-drain: keep the first
occurrence of each value, in order, dropping every later duplicate. -/
def dedupFirstOccurrence : List String → List String
  | [] => []
  | a :: l => a :: dedupFirstOccurrence (l.filter (fun b => decide (b ≠ a)))
  termination_by l => l.length
  decreasing_by
    simp only [List.length_cons]
    exact Nat.lt_succ_of_le (List.length_filter_le _ _)

/-- Specification-side reading of the claim that subject enumeration
keeps only identifiers beginning with an HTTP(S) scheme: the string
begins with the scheme `http:` or the scheme `https:`. -/
def beginsWithHttpScheme (s : String) : Bool :=
  jsStartsWith s "http:" || jsStartsWith s "https:"

/-- `refreshLdfQryCtxEngine()` (lines 118-125): guarded by the logical
test `ldfQryCtxStale && QC_STALE_SOURCE_CHANGED`, rebuilds the engine
slot and XORs the source bit out of (or, when it was not set, into) the
staleness value.  Returns the new state and the rebuilt slots. -/
def refreshLdfQryCtxEngine (st : ClientState) : ClientState × List Slot :=
  if jsAndTruthy st.ldfQryCtxStale QC_STALE_SOURCE_CHANGED then
    ({ st with
        gLdfQryCtx := { st.gLdfQryCtx with queryEngine := some ⟨st.source⟩ },
        ldfQryCtxStale := st.ldfQryCtxStale ^^^ QC_STALE_SOURCE_CHANGED },
     [Slot.engine])
  else (st, [])

/-- Third guarded block of `refreshLdfQryCtx` (lines 153-156) followed by
`setLdfQryCtxStale(QC_VALID)` (line 158).  `gLdfQryCtx.pathFactory` being
`null` makes `pathFactory.create` throw a TypeError, carried as an
`Except.error` with the state as mutated so far.  `namedNode(ldfSubject)`
stringifies a `null` subject; the caller validates the subject first. -/
def refreshBranch3 (stale : Nat) (ctx : LdfQryCtx) (r : List Slot)
    (st : ClientState) :
    Except (String × ClientState × List Slot) (ClientState × List Slot) :=
  if jsAndTruthy stale
      (QC_STALE_SOURCE_CHANGED ||| QC_STALE_CONTEXT_CHANGED |||
        QC_STALE_SUBJECT_CHANGED) then
    match ctx.pathFactory with
    | none =>
      .error ("TypeError: cannot read create of null",
              { st with gLdfQryCtx := ctx }, r)
    | some f =>
      .ok ({ st with
              gLdfQryCtx :=
                { ctx with
                    subjectPath := some ⟨f, st.ldfSubject.getD "null"⟩ },
              ldfQryCtxStale := QC_VALID },
           r ++ [Slot.entryPath])
  else
    .ok ({ st with gLdfQryCtx := ctx, ldfQryCtxStale := QC_VALID }, r)

/-- `refreshLdfQryCtx()` (lines 127-159).  All three blocks test the
captured staleness value with logical `&&`; `JSON.parse(context)` (line
149) may throw, aborting the refresh with the engine slot already
replaced. -/
def refreshLdfQryCtx (env : Env) (st : ClientState) :
    Except (String × ClientState × List Slot) (ClientState × List Slot) :=
  let stale := st.ldfQryCtxStale
  let er1 :=
    if jsAndTruthy stale QC_STALE_SOURCE_CHANGED then
      ({ st.gLdfQryCtx with queryEngine := some ⟨st.source⟩ }, [Slot.engine])
    else (st.gLdfQryCtx, ([] : List Slot))
  let ctx1 := er1.1
  let r1 := er1.2
  if jsAndTruthy stale (QC_STALE_SOURCE_CHANGED ||| QC_STALE_CONTEXT_CHANGED) then
    if env.parseJson st.context then
      refreshBranch3 stale
        { ctx1 with
            pathFactory := some ⟨some st.context, ctx1.queryEngine⟩ }
        (r1 ++ [Slot.factory]) st
    else
      .error ("SyntaxError: JSON parse error",
              { st with gLdfQryCtx := ctx1 }, r1)
  else
    refreshBranch3 stale ctx1 r1 st

/-- The subject test of `execQuery` (line 178):
`!ldfSubject || !ldfSubject.trim()`. -/
def subjectMissing : Option String → Bool
  | none => true
  | some s => jsTrim s == ""

/-- The four sequential validations of `execQuery` (lines 167-205), each
returning early with the status message it sets.  They read only
`source`, `ldfSubject`, `context` and `ldfDataPath`. -/
def execValidate (env : Env) (st : ClientState) : Option String :=
  match validateSource env.parseUrl st.source with
  | .error msg => some msg
  | .ok _ =>
    if subjectMissing st.ldfSubject then
      some "Invalid subject URI: No subject selected."
    else if jsTrim st.context = "" then
      some "Invalid context: Error: Empty JSON-LD context"
    else if !(env.parseJson st.context) then
      some "Invalid context: SyntaxError: JSON parse error"
    else if jsTrim st.ldfDataPath = "" then
      some "Invalid LDflex data path: Error: Data path not set"
    else none

/-- The `try` block of `execQuery` (lines 207-243): refresh the chain if
the captured staleness value is truthy, resolve the data path against
`gLdfQryCtx.subjectPath` (a TypeError when that slot is `null`), drain
the producer into the dedup accumulator, and on any throw set the status
to `Query execution failed: ` plus the message. -/
def execTry (env : Env) (st : ClientState) : ClientState × List Slot :=
  match
    (if jsTruthy st.ldfQryCtxStale then refreshLdfQryCtx env st
     else .ok (st, [])) with
  | .error (e, st1, r) =>
    ({ st1 with status := some ("Query execution failed: " ++ e) }, r)
  | .ok (st1, r) =>
    match st1.gLdfQryCtx.subjectPath with
    | none =>
      ({ st1 with
          status :=
            some "Query execution failed: TypeError: cannot read resolve of null" },
       r)
    | some _ =>
      match env.resolveDrain.2 with
      | some e =>
        ({ st1 with status := some ("Query execution failed: " ++ e) }, r)
      | none =>
        ({ st1 with
            queryResult := some (resolveAndCollect env.resolveDrain.1) }, r)

/-- `execQuery()` (lines 162-244): clear result and status, run the four
validations (they read none of the fields the clearing touched), then the
try block.  Returns the new state and the chain slots rebuilt. -/
def execQuery (env : Env) (st : ClientState) : ClientState × List Slot :=
  match execValidate env (clearQueryResultAndStatus st) with
  | some m => ({ clearQueryResultAndStatus st with status := some m }, [])
  | none => execTry env (clearQueryResultAndStatus st)

/-- The statements of `getSourceSubjects` that run before its `try`
(lines 263-267): clear result and status, reset the global subject
list. -/
def getSourceSubjectsPrep (st : ClientState) : ClientState :=
  { clearQueryResultAndStatus st with grSubjects := [] }

/-- The `try` block of `getSourceSubjects` (lines 269-292): validate the
source, refresh the engine slot if the staleness value is truthy, drain
the subjects iterator pushing every identifier that starts with `http`
(line 286, the blank-node filter), and finally select the first listed
subject if any.  A throw carries the state as mutated up to that point
(a mid-drain failure keeps the identifiers already pushed). -/
def getSourceSubjectsTry (env : Env) (st : ClientState) :
    Except (String × ClientState × List Slot) (ClientState × List Slot) :=
  match validateSource env.parseUrl st.source with
  | .error msg => .error (msg, st, [])
  | .ok _ =>
    let str :=
      if jsTruthy st.ldfQryCtxStale then refreshLdfQryCtxEngine st
      else (st, [])
    let st1 := str.1
    let r := str.2
    let kept := env.subjectsDrain.1.filter (fun s => jsStartsWith s "http")
    let st2 := { st1 with grSubjects := kept }
    match env.subjectsDrain.2 with
    | some e => .error (e, st2, r)
    | none =>
      match kept with
      | [] => .ok (st2, r)
      | a :: _ => .ok ({ st2 with ldfSubject := some a }, r)

/-- `getSourceSubjects()` (lines 262-302).  The `catch` (lines 294-298)
sets the status to the thrown message, assigns
`QC_STALE_SOURCE_CHANGED` as the staleness value and clears the selected
subject; no exception escapes the function (its return type is a plain
state, not an `Except`). -/
def getSourceSubjects (env : Env) (st : ClientState) :
    ClientState × List Slot :=
  match getSourceSubjectsTry env (getSourceSubjectsPrep st) with
  | .ok (st1, r) => (st1, r)
  | .error (msg, st1, r) =>
    ({ st1 with status := some msg,
                ldfQryCtxStale := QC_STALE_SOURCE_CHANGED,
                ldfSubject := none }, r)

/-- The `try` block of `getSubjectProperties` (lines 311-335): validate
the selected subject, require an instantiated engine, drain the
properties iterator pushing every property URI unfiltered, then select
the first listed property if any. -/
def getSubjectPropertiesTry (env : Env) (st : ClientState) :
    Except (String × ClientState) ClientState :=
  if subjectMissing st.ldfSubject then
    .error ("Error: No subject selected.", st)
  else
    match st.gLdfQryCtx.queryEngine with
    | none => .error ("Error: Query engine not instantiated.", st)
    | some _ =>
      let st1 := { st with grSubjectProperties := env.propertiesDrain.1 }
      match env.propertiesDrain.2 with
      | some e => .error (e, st1)
      | none =>
        match env.propertiesDrain.1 with
        | [] => .ok st1
        | a :: _ => .ok { st1 with ldfProperty := some a }

/-- `getSubjectProperties()` (lines 304-344): reset the global property
list, run the try block; the `catch` (lines 337-340) sets the status and
clears the selected property. -/
def getSubjectProperties (env : Env) (st : ClientState) : ClientState :=
  match getSubjectPropertiesTry env { st with grSubjectProperties := [] } with
  | .ok st1 => st1
  | .error (msg, st1) =>
    { st1 with status := some msg, ldfProperty := none }

/-- The fields of the state that act as the inputs of `execQuery`:
`source`, `ldfSubject`, `context` and `ldfDataPath`. -/
def inputsEq (a b : ClientState) : Prop :=
  a.source = b.source ∧ a.ldfSubject = b.ldfSubject ∧
  a.context = b.context ∧ a.ldfDataPath = b.ldfDataPath

/-- A concrete stand-in for the WHATWG URL parser: accepts strings with
an `https://` prefix (origin: the string itself), parses `urn:isbn:1`
with the opaque origin `null`, and rejects everything else. -/
def sampleParseUrl : String → Option String :=
  fun s =>
    if s = "urn:isbn:1" then some "null"
    else if jsStartsWith s "https://" then some s
    else none

/-- A sample environment: every context parses, the resolver yields the
value `Alice` twice (the uniform-sequence artifact) and completes, and
both enumerations complete empty. -/
def sampleEnv : Env :=
  { parseUrl := sampleParseUrl,
    parseJson := fun _ => true,
    resolveDrain := (["Alice", "Alice"], none),
    subjectsDrain := ([], none),
    propertiesDrain := ([], none) }

/-- The engine built from the previously loaded source. -/
def engineOld : Engine := ⟨"https://old.example/data"⟩

/-- The path factory built from the previously loaded inputs. -/
def factoryOld : PathFactory := ⟨some "old context", some engineOld⟩

/-- A state in which a full chain was built from the old inputs, then the
user edited only the context: only `QC_STALE_CONTEXT_CHANGED` is set. -/
def stContextOnlyStale : ClientState :=
  { ldfQryCtxStale := QC_STALE_CONTEXT_CHANGED,
    source := "https://new.example/data",
    ldfSubject := some "https://new.example/data#me",
    ldfProperty := none,
    context := "sample context",
    ldfDataPath := ".name",
    queryResult := none,
    status := none,
    gLdfQryCtx :=
      ⟨some engineOld, some factoryOld,
        some ⟨factoryOld, "https://old.example/data#me"⟩⟩,
    grSubjects := [],
    grSubjectProperties := [] }

/-- `stContextOnlyStale` with no staleness at all. -/
def stFresh : ClientState :=
  { stContextOnlyStale with ldfQryCtxStale := QC_VALID }

/-- `stContextOnlyStale` with no subject selected. -/
def stNoSubject : ClientState :=
  { stContextOnlyStale with ldfSubject := none }

/-- An environment whose subjects iterator yields one identifier of the
scheme `httpx`, which is not HTTP or HTTPS. -/
def envHttpx : Env :=
  { sampleEnv with subjectsDrain := (["httpx://a"], none) }

/-- An environment whose subjects iterator yields two HTTP(S) URIs and a
blank-node label, and whose properties iterator yields one URI. -/
def envBlankNodes : Env :=
  { sampleEnv with
      subjectsDrain := (["https://x/1", "_:b0", "https://x/2"], none),
      propertiesDrain := (["https://p/1"], none) }

/-- An environment whose subjects iterator throws. -/
def envEnumFail : Env :=
  { sampleEnv with subjectsDrain := ([], some "Enumeration failed") }

/-- An environment whose result producer throws while being drained. -/
def envResolveFail : Env :=
  { sampleEnv with resolveDrain := ([], some "Resolver error") }

/-- The rebuilt-slot list of a refresh outcome, `none` on a throw. -/
def refreshOutSlots
    (x : Except (String × ClientState × List Slot) (ClientState × List Slot)) :
    Option (List Slot) :=
  match x with
  | .ok (_, r) => some r
  | .error _ => none

/-- The engine slot after a refresh outcome, `none` on a throw. -/
def refreshOutEngine
    (x : Except (String × ClientState × List Slot) (ClientState × List Slot)) :
    Option (Option Engine) :=
  match x with
  | .ok (st, _) => some st.gLdfQryCtx.queryEngine
  | .error _ => none

/-- The state produced by a successful `refreshLdfQryCtx` run in which
all three guarded blocks fired (as they do whenever the captured
staleness value is nonzero): all three slots freshly rebuilt from the
current inputs, staleness reset to `QC_VALID`. -/
def refreshedOutcome (st : ClientState) : ClientState :=
  { st with
      gLdfQryCtx :=
        ⟨some ⟨st.source⟩,
         some ⟨some st.context, some ⟨st.source⟩⟩,
         some ⟨⟨some st.context, some ⟨st.source⟩⟩, st.ldfSubject.getD "null"⟩⟩,
      ldfQryCtxStale := QC_VALID }

/-- Claim C1 (code_bug): with only `QC_STALE_CONTEXT_CHANGED` set, the
claim (and the comment on lines 131-137 of the source: `queryEngine need
only change if source changes`) says `refreshLdfQryCtx` must not rebuild
the engine; but the logical test `ldfQryCtxStale &&
QC_STALE_SOURCE_CHANGED` on line 139 is truthy for any nonzero staleness
value, so the engine slot is rebuilt (and so are the other two). -/
theorem c1_refreshLdfQryCtx_rebuilds_engine_on_context_only_change :
    stContextOnlyStale.ldfQryCtxStale &&& QC_STALE_SOURCE_CHANGED = 0 ∧
    refreshOutSlots (refreshLdfQryCtx sampleEnv stContextOnlyStale) =
      some [Slot.engine, Slot.factory, Slot.entryPath] ∧
    refreshOutEngine (refreshLdfQryCtx sampleEnv stContextOnlyStale) =
      some (some ⟨"https://new.example/data"⟩) ∧
    stContextOnlyStale.gLdfQryCtx.queryEngine = some engineOld ∧
    engineOld ≠ ⟨"https://new.example/data"⟩ := by
  decide

/-- Claim C2, counterexample: starting from a state whose only set flag
is `QC_STALE_CONTEXT_CHANGED`, the source-change handler leaves the
staleness value at `QC_STALE_SOURCE_CHANGED`: the context flag has been
cleared without any rebuild (the chain slots are untouched),
contradicting `leaves the other two flags unchanged` and `a flag is
cleared only after the resources depending on it have been rebuilt`. -/
theorem c2_counterexample_source_mark_clears_context_flag :
    stContextOnlyStale.ldfQryCtxStale &&& QC_STALE_CONTEXT_CHANGED ≠ 0 ∧
    (sourceChangeHandler "https://other.example/" stContextOnlyStale).ldfQryCtxStale
        &&& QC_STALE_CONTEXT_CHANGED = 0 ∧
    (sourceChangeHandler "https://other.example/" stContextOnlyStale).gLdfQryCtx =
      stContextOnlyStale.gLdfQryCtx := by
  decide

/-- Claim C2, amended: each change handler overwrites the staleness
value with exactly its own flag (so its own flag is set, and any other
flag previously set is cleared by the overwrite, without any rebuild);
the handlers never touch the chain slots. -/
theorem c2_handlers_overwrite_staleness (v : String) (st : ClientState) :
    (sourceChangeHandler v st).ldfQryCtxStale = QC_STALE_SOURCE_CHANGED ∧
    (contextChangeHandler v st).ldfQryCtxStale = QC_STALE_CONTEXT_CHANGED ∧
    (lstSubjectChangeHandler v st).ldfQryCtxStale = QC_STALE_SUBJECT_CHANGED ∧
    (sourceChangeHandler v st).gLdfQryCtx = st.gLdfQryCtx ∧
    (contextChangeHandler v st).gLdfQryCtx = st.gLdfQryCtx ∧
    (lstSubjectChangeHandler v st).gLdfQryCtx = st.gLdfQryCtx :=
  ⟨rfl, rfl, rfl, rfl, rfl, rfl⟩

/-- Claim C3 (code_bug): with only `QC_STALE_CONTEXT_CHANGED` set the
source flag is already clear, so the claim says `refreshLdfQryCtxEngine`
leaves it clear; but the logical test on line 121 is truthy for any
nonzero staleness, so the engine is rebuilt and the XOR on line 123 SETS
the source bit (staleness becomes 6) instead of clearing it. -/
theorem c3_refreshLdfQryCtxEngine_sets_source_flag_on_context_only :
    stContextOnlyStale.ldfQryCtxStale &&& QC_STALE_SOURCE_CHANGED = 0 ∧
    (refreshLdfQryCtxEngine stContextOnlyStale).2 = [Slot.engine] ∧
    (refreshLdfQryCtxEngine stContextOnlyStale).1.ldfQryCtxStale =
      QC_STALE_SOURCE_CHANGED ||| QC_STALE_CONTEXT_CHANGED ∧
    (refreshLdfQryCtxEngine stContextOnlyStale).1.ldfQryCtxStale &&&
        QC_STALE_SOURCE_CHANGED ≠ 0 := by
  decide

/-- Accumulator characterization of the drain loop: folding
`collectStep` over the produced values extends the accumulator with the
first occurrences of the values not yet present. -/
theorem foldl_collectStep_eq (l : List String) :
    ∀ acc : List String,
      l.foldl collectStep acc =
        acc ++ dedupFirstOccurrence (l.filter (fun x => decide (x ∉ acc))) := by
  induction l with
  | nil =>
    intro acc
    simp [dedupFirstOccurrence]
  | cons a l ih =>
    intro acc
    rw [List.foldl_cons]
    by_cases h : a ∈ acc
    · rw [show collectStep acc a = acc from if_pos h, ih acc,
        List.filter_cons_of_neg (by simp [h])]
    · rw [show collectStep acc a = acc ++ [a] from if_neg h, ih (acc ++ [a]),
        List.filter_cons_of_pos (by simp [h])]
      rw [dedupFirstOccurrence]
      rw [List.filter_filter]
      have hcongr :
          l.filter (fun x => decide (x ∉ acc ++ [a])) =
            l.filter (fun x => decide (x ≠ a) && decide (x ∉ acc)) := by
        refine List.filter_congr ?_
        intro x _
        rw [← Bool.decide_and]
        refine decide_eq_decide.mpr ?_
        simp only [List.mem_append, List.mem_singleton, not_or]
        tauto
      rw [hcongr, List.append_assoc, List.singleton_append]

/-- Claim C4: draining a producer through the Set accumulator returns
the distinct canonical string forms in first-insertion order; in
particular `A, B, A` collects to `[A, B]` and `Alice, Alice` collects to
`[Alice]`. -/
theorem c4_resolveAndCollect_dedups_in_first_insertion_order :
    (∀ l, resolveAndCollect l = dedupFirstOccurrence l) ∧
    resolveAndCollect ["A", "B", "A"] = ["A", "B"] ∧
    resolveAndCollect ["Alice", "Alice"] = ["Alice"] := by
  refine ⟨?_, by decide, by decide⟩
  intro l
  have h := foldl_collectStep_eq l []
  simpa [resolveAndCollect] using h

/-- Every failure of `validateSource` carries a message starting with
`Invalid` (the `Invalid source URL: ` wrap of line 258). -/
theorem validateSource_error_validation (p : String → Option String)
    (s m : String) (h : validateSource p s = .error m) :
    jsStartsWith m "Invalid" = true := by
  unfold validateSource at h
  split at h
  · cases h
    decide
  · split at h
    · cases h
      decide
    · split at h
      · cases h
        decide
      · cases h

/-- With no usable subject, `execValidate` reports a validation failure:
either the source message or the subject message, both `Invalid`. -/
theorem execValidate_subjectMissing (env : Env) (st : ClientState)
    (h : subjectMissing st.ldfSubject = true) :
    ∃ m, execValidate env st = some m ∧ jsStartsWith m "Invalid" = true := by
  unfold execValidate
  cases hv : validateSource env.parseUrl st.source with
  | error msg => exact ⟨msg, rfl, validateSource_error_validation _ _ _ hv⟩
  | ok src =>
    refine ⟨"Invalid subject URI: No subject selected.", ?_, by decide⟩
    simp [h]

/-- Claim C5: calling `execQuery` with an empty (or whitespace-only, or
unselected) subject fails with a validation-class status message, calls
no chain-rebuild function, and leaves the chain slots and the staleness
value exactly as they were. -/
theorem c5_execQuery_empty_subject_no_rebuild (env : Env) (st : ClientState)
    (h : subjectMissing st.ldfSubject = true) :
    (execQuery env st).2 = [] ∧
    (execQuery env st).1.gLdfQryCtx = st.gLdfQryCtx ∧
    (execQuery env st).1.ldfQryCtxStale = st.ldfQryCtxStale ∧
    ∃ m, (execQuery env st).1.status = some m ∧
      jsStartsWith m "Invalid" = true := by
  obtain ⟨m, hm, hmi⟩ :=
    execValidate_subjectMissing env (clearQueryResultAndStatus st) h
  unfold execQuery
  rw [hm]
  exact ⟨rfl, rfl, rfl, m, rfl, hmi⟩

/-- Witness for C5 at a concrete state with no subject selected. -/
theorem c5_execQuery_empty_subject_no_rebuild_witness :
    (execQuery sampleEnv stNoSubject).2 = [] ∧
    (execQuery sampleEnv stNoSubject).1.gLdfQryCtx = stNoSubject.gLdfQryCtx ∧
    (execQuery sampleEnv stNoSubject).1.ldfQryCtxStale =
      stNoSubject.ldfQryCtxStale ∧
    ∃ m, (execQuery sampleEnv stNoSubject).1.status = some m ∧
      jsStartsWith m "Invalid" = true :=
  c5_execQuery_empty_subject_no_rebuild sampleEnv stNoSubject (by decide)

/-- Claim C6: whenever the body of `getSourceSubjects` throws (source
validation or the subjects drain), the catch of lines 294-298 re-marks
the source-staleness flag, clears the selected subject and stores the
message; the wrapper returns a plain state, so no exception escapes. -/
theorem c6_getSourceSubjects_failure_remarks_source (env : Env)
    (st : ClientState) (msg : String) (st1 : ClientState) (r : List Slot)
    (h : getSourceSubjectsTry env (getSourceSubjectsPrep st) =
      .error (msg, st1, r)) :
    (getSourceSubjects env st).1.ldfQryCtxStale = QC_STALE_SOURCE_CHANGED ∧
    (getSourceSubjects env st).1.ldfSubject = none ∧
    (getSourceSubjects env st).1.status = some msg := by
  unfold getSourceSubjects
  rw [h]
  exact ⟨rfl, rfl, rfl⟩

/-- Witness for C6: a subjects iterator that throws. -/
theorem c6_getSourceSubjects_failure_remarks_source_witness :
    (getSourceSubjects envEnumFail stFresh).1.ldfQryCtxStale =
      QC_STALE_SOURCE_CHANGED ∧
    (getSourceSubjects envEnumFail stFresh).1.ldfSubject = none ∧
    (getSourceSubjects envEnumFail stFresh).1.status =
      some "Enumeration failed" :=
  c6_getSourceSubjects_failure_remarks_source envEnumFail stFresh
    "Enumeration failed" (getSourceSubjectsPrep stFresh) [] rfl

/-- Claim C7, counterexample: the code filter is `startsWith http`
(line 286), so an identifier of scheme `httpx` — which does not begin
with the HTTP or HTTPS scheme — is kept by subject enumeration. -/
theorem c7_counterexample_nonhttp_scheme_kept :
    (getSourceSubjects envHttpx stFresh).1.grSubjects = ["httpx://a"] ∧
    beginsWithHttpScheme "httpx://a" = false ∧
    jsStartsWith "httpx://a" "http" = true := by
  decide

/-- Claim C7, amended: subject enumeration keeps, in order, exactly the
identifiers whose string form starts with the four characters `http`
(hence blank nodes `_:...` are discarded, but so-kept strings need not
carry an HTTP(S) scheme, e.g. `httpx://a`); property enumeration
performs no filtering. -/
theorem c7_enumeration_keeps_http_text_onwards (env : Env) (st : ClientState) :
    (∀ ids src, env.subjectsDrain = (ids, none) →
        validateSource env.parseUrl st.source = .ok src →
        (getSourceSubjects env st).1.grSubjects =
          ids.filter (fun s => jsStartsWith s "http")) ∧
    (∀ props e, env.propertiesDrain = (props, none) →
        subjectMissing st.ldfSubject = false →
        st.gLdfQryCtx.queryEngine = some e →
        (getSubjectProperties env st).grSubjectProperties = props) ∧
    (getSourceSubjects envBlankNodes stFresh).1.grSubjects =
      ["https://x/1", "https://x/2"] := by
  refine ⟨?_, ?_, by decide⟩
  · intro ids src hdr hv
    unfold getSourceSubjects getSourceSubjectsTry
    cases hif : jsTruthy st.ldfQryCtxStale <;>
      cases hk : ids.filter (fun s => jsStartsWith s "http") <;>
        simp [getSourceSubjectsPrep, clearQueryResultAndStatus, hv, hdr, hif,
          hk, refreshLdfQryCtxEngine, jsAndTruthy, jsTruthy,
          QC_STALE_SOURCE_CHANGED]
  · intro props e hdr hsm heng
    unfold getSubjectProperties getSubjectPropertiesTry
    cases hp : props <;>
      simp [hsm, heng, hdr, hp]

/-- Witness for C7 at concrete enumerations. -/
theorem c7_enumeration_keeps_http_text_onwards_witness :
    (getSourceSubjects envBlankNodes stFresh).1.grSubjects =
      ["https://x/1", "_:b0", "https://x/2"].filter
        (fun s => jsStartsWith s "http") ∧
    (getSubjectProperties envBlankNodes stFresh).grSubjectProperties =
      ["https://p/1"] :=
  ⟨(c7_enumeration_keeps_http_text_onwards envBlankNodes stFresh).1
      ["https://x/1", "_:b0", "https://x/2"] "https://new.example/data"
      rfl rfl,
    (c7_enumeration_keeps_http_text_onwards envBlankNodes stFresh).2.1
      ["https://p/1"] engineOld rfl (by decide) rfl⟩

@[simp] theorem clear_ldfQryCtxStale (st : ClientState) :
    (clearQueryResultAndStatus st).ldfQryCtxStale = st.ldfQryCtxStale := rfl

@[simp] theorem clear_source (st : ClientState) :
    (clearQueryResultAndStatus st).source = st.source := rfl

@[simp] theorem clear_ldfSubject (st : ClientState) :
    (clearQueryResultAndStatus st).ldfSubject = st.ldfSubject := rfl

@[simp] theorem clear_context (st : ClientState) :
    (clearQueryResultAndStatus st).context = st.context := rfl

@[simp] theorem clear_ldfDataPath (st : ClientState) :
    (clearQueryResultAndStatus st).ldfDataPath = st.ldfDataPath := rfl

@[simp] theorem clear_gLdfQryCtx (st : ClientState) :
    (clearQueryResultAndStatus st).gLdfQryCtx = st.gLdfQryCtx := rfl

@[simp] theorem clear_queryResult (st : ClientState) :
    (clearQueryResultAndStatus st).queryResult = none := rfl

@[simp] theorem clear_status (st : ClientState) :
    (clearQueryResultAndStatus st).status = none := rfl

@[simp] theorem refreshedOutcome_ldfQryCtxStale (st : ClientState) :
    (refreshedOutcome st).ldfQryCtxStale = QC_VALID := rfl

@[simp] theorem refreshedOutcome_subjectPath (st : ClientState) :
    (refreshedOutcome st).gLdfQryCtx.subjectPath =
      some ⟨⟨some st.context, some ⟨st.source⟩⟩, st.ldfSubject.getD "null"⟩ :=
  rfl

@[simp] theorem refreshedOutcome_queryResult (st : ClientState) :
    (refreshedOutcome st).queryResult = st.queryResult := rfl

@[simp] theorem refreshedOutcome_status (st : ClientState) :
    (refreshedOutcome st).status = st.status := rfl

@[simp] theorem refreshedOutcome_source (st : ClientState) :
    (refreshedOutcome st).source = st.source := rfl

@[simp] theorem refreshedOutcome_ldfSubject (st : ClientState) :
    (refreshedOutcome st).ldfSubject = st.ldfSubject := rfl

@[simp] theorem refreshedOutcome_context (st : ClientState) :
    (refreshedOutcome st).context = st.context := rfl

@[simp] theorem refreshedOutcome_ldfDataPath (st : ClientState) :
    (refreshedOutcome st).ldfDataPath = st.ldfDataPath := rfl

/-- A zero staleness value is JS-falsy. -/
theorem jsTruthy_false_iff (n : Nat) : jsTruthy n = false ↔ n = 0 := by
  simp [jsTruthy]

/-- A successful full refresh: when the captured staleness value is
nonzero and the context parses, all three guarded blocks fire and the
refresh returns the fully rebuilt state. -/
theorem refreshLdfQryCtx_ok (env : Env) (st : ClientState)
    (hs : jsTruthy st.ldfQryCtxStale = true)
    (hj : env.parseJson st.context = true) :
    refreshLdfQryCtx env st =
      .ok (refreshedOutcome st, [Slot.engine, Slot.factory, Slot.entryPath]) := by
  have hs' : ¬ st.ldfQryCtxStale = 0 := by simpa [jsTruthy] using hs
  unfold refreshLdfQryCtx refreshBranch3 refreshedOutcome
  simp [jsAndTruthy, jsTruthy, hj, hs', QC_STALE_SOURCE_CHANGED,
    QC_STALE_CONTEXT_CHANGED, QC_STALE_SUBJECT_CHANGED]

/-- Inversion of a passing validation: the subject is usable and the
context parses. -/
theorem execValidate_none_facts (env : Env) (st : ClientState)
    (h : execValidate env st = none) :
    subjectMissing st.ldfSubject = false ∧ env.parseJson st.context = true := by
  unfold execValidate at h
  split at h
  · cases h
  · split at h
    · cases h
    · split at h
      · cases h
      · split at h
        · cases h
        · split at h
          · cases h
          · simp_all

/-- `execValidate` reads only the four input fields. -/
theorem execValidate_congr (env : Env) (a b : ClientState)
    (h : inputsEq a b) : execValidate env a = execValidate env b := by
  obtain ⟨h1, h2, h3, h4⟩ := h
  unfold execValidate
  rw [h1, h2, h3, h4]

/-- Inversion of a successful `execQuery`: the validations passed, the
staleness value ends at zero, the entry-path slot is populated, the
drain completed, and the input fields are unchanged. -/
theorem execQuery_success_facts (env : Env) (st : ClientState)
    (h : (execQuery env st).1.queryResult.isSome = true) :
    execValidate env (clearQueryResultAndStatus st) = none ∧
    (execQuery env st).1.ldfQryCtxStale = 0 ∧
    (execQuery env st).1.gLdfQryCtx.subjectPath.isSome = true ∧
    env.resolveDrain.2 = none ∧
    inputsEq (execQuery env st).1 st := by
  unfold execQuery at h ⊢
  cases hv : execValidate env (clearQueryResultAndStatus st) with
  | some m =>
    rw [hv] at h
    simp at h
  | none =>
    rw [hv] at h
    unfold execTry at h ⊢
    cases hst : jsTruthy st.ldfQryCtxStale with
    | true =>
      have hj : env.parseJson st.context = true :=
        (execValidate_none_facts env (clearQueryResultAndStatus st) hv).2
      have hr := refreshLdfQryCtx_ok env (clearQueryResultAndStatus st) hst hj
      cases hdr : env.resolveDrain.2 with
      | some e =>
        simp [hst, hr, hdr] at h
      | none =>
        simp [hst, hr, hdr, QC_VALID, inputsEq]
    | false =>
      cases hsp : st.gLdfQryCtx.subjectPath with
      | none =>
        simp [hst, hsp] at h
      | some sp =>
        cases hdr : env.resolveDrain.2 with
        | some e =>
          simp [hst, hsp, hdr] at h
        | none =>
          simp [hst, hsp, hdr, QC_VALID, inputsEq]
          exact (jsTruthy_false_iff st.ldfQryCtxStale).mp hst

/-- With a zero staleness value, `execQuery` performs no rebuild and
leaves the chain slots untouched, whatever else happens. -/
theorem execQuery_no_stale_no_rebuild (env : Env) (st : ClientState)
    (hstale : st.ldfQryCtxStale = 0) :
    (execQuery env st).2 = [] ∧
    (execQuery env st).1.gLdfQryCtx = st.gLdfQryCtx := by
  unfold execQuery
  cases hv : execValidate env (clearQueryResultAndStatus st) with
  | some m => exact ⟨rfl, rfl⟩
  | none =>
    unfold execTry
    cases hsp : st.gLdfQryCtx.subjectPath with
    | none =>
      simp [hstale, jsTruthy, hsp]
    | some sp =>
      cases hdr : env.resolveDrain.2 with
      | some e => simp [hstale, jsTruthy, hsp, hdr]
      | none => simp [hstale, jsTruthy, hsp, hdr]

/-- Claim C8: after a prior successful `execQuery` (ensureFresh) run, a
second run with the identical unchanged inputs performs zero rebuilds of
any chain slot, and succeeds again. -/
theorem c8_execQuery_second_call_zero_rebuilds (env : Env) (st : ClientState)
    (h : (execQuery env st).1.queryResult.isSome = true) :
    (execQuery env (execQuery env st).1).2 = [] ∧
    (execQuery env (execQuery env st).1).1.queryResult.isSome = true := by
  obtain ⟨hv, hstale, hsp, hdr, hin⟩ := execQuery_success_facts env st h
  set st1 := (execQuery env st).1 with hst1
  have hv2 : execValidate env (clearQueryResultAndStatus st1) = none :=
    (execValidate_congr env (clearQueryResultAndStatus st1)
      (clearQueryResultAndStatus st) hin).trans hv
  obtain ⟨sp, hsp'⟩ := Option.isSome_iff_exists.mp hsp
  unfold execQuery
  rw [hv2]
  unfold execTry
  simp [hstale, jsTruthy, hsp', hdr]

/-- Witness for C8: a concrete first call succeeds and the second call
rebuilds nothing. -/
theorem c8_execQuery_second_call_zero_rebuilds_witness :
    (execQuery sampleEnv (execQuery sampleEnv stContextOnlyStale).1).2 = [] ∧
    (execQuery sampleEnv
      (execQuery sampleEnv stContextOnlyStale).1).1.queryResult.isSome =
        true :=
  c8_execQuery_second_call_zero_rebuilds sampleEnv stContextOnlyStale
    (by decide)

/-- Claim C9: when draining the result producer fails, the catch leaves
the staleness flags exactly as they were at the failure moment (the
refresh had just reset them to `QC_VALID`; the catch touches only the
status), so a retry with unchanged inputs performs zero rebuilds and
reuses the existing chain slots. -/
theorem c9_resolution_failure_preserves_flags (env : Env) (st : ClientState)
    (e : String)
    (hval : execValidate env (clearQueryResultAndStatus st) = none)
    (hstale : jsTruthy st.ldfQryCtxStale = true)
    (hdrain : env.resolveDrain.2 = some e) :
    ∃ st1,
      execQuery env st = (st1, [Slot.engine, Slot.factory, Slot.entryPath]) ∧
      st1.status = some ("Query execution failed: " ++ e) ∧
      st1.ldfQryCtxStale = QC_VALID ∧
      st1.gLdfQryCtx =
        (refreshedOutcome (clearQueryResultAndStatus st)).gLdfQryCtx ∧
      (execQuery env st1).2 = [] ∧
      (execQuery env st1).1.gLdfQryCtx = st1.gLdfQryCtx := by
  have hj : env.parseJson st.context = true :=
    (execValidate_none_facts env (clearQueryResultAndStatus st) hval).2
  refine ⟨{ refreshedOutcome (clearQueryResultAndStatus st) with
            status := some ("Query execution failed: " ++ e) },
    ?_, rfl, rfl, rfl, ?_, ?_⟩
  · have hr := refreshLdfQryCtx_ok env (clearQueryResultAndStatus st) hstale hj
    unfold execQuery
    rw [hval]
    unfold execTry
    simp [hstale, hr, hdrain]
  · exact (execQuery_no_stale_no_rebuild env _ rfl).1
  · exact (execQuery_no_stale_no_rebuild env _ rfl).2

/-- Witness for C9: a concrete resolver failure after a context-only
staleness. -/
theorem c9_resolution_failure_preserves_flags_witness :
    ∃ st1,
      execQuery envResolveFail stContextOnlyStale =
        (st1, [Slot.engine, Slot.factory, Slot.entryPath]) ∧
      st1.status = some ("Query execution failed: " ++ "Resolver error") ∧
      st1.ldfQryCtxStale = QC_VALID ∧
      st1.gLdfQryCtx =
        (refreshedOutcome
          (clearQueryResultAndStatus stContextOnlyStale)).gLdfQryCtx ∧
      (execQuery envResolveFail st1).2 = [] ∧
      (execQuery envResolveFail st1).1.gLdfQryCtx = st1.gLdfQryCtx :=
  c9_resolution_failure_preserves_flags envResolveFail stContextOnlyStale
    "Resolver error" (by decide) (by decide) rfl

/-- Claim C10: `validateSource` fails for whitespace-only sources, for
strings the URL parser rejects, and for parsed URIs whose origin is the
string `null` (opaque-scheme URIs such as `urn:` or `data:`); on success
it returns the trimmed source. -/
theorem c10_validateSource_spec :
    (∀ p (s : String), jsTrim s = "" →
        validateSource p s = .error "Invalid source URL: Empty string") ∧
    (∀ p (s : String), jsTrim s ≠ "" → p (jsTrim s) = none →
        validateSource p s =
          .error "Invalid source URL: URL constructor error") ∧
    (∀ p (s : String), jsTrim s ≠ "" → p (jsTrim s) = some "null" →
        validateSource p s = .error "Invalid source URL: URL parsing error") ∧
    (∀ p (s : String) o, jsTrim s ≠ "" → p (jsTrim s) = some o →
        o ≠ "null" → validateSource p s = .ok (jsTrim s)) := by
  refine ⟨?_, ?_, ?_, ?_⟩ <;> intros <;> simp [validateSource, *]

/-- Witness for C10: the four outcomes at concrete sources under the
sample parser. -/
theorem c10_validateSource_spec_witness :
    validateSource sampleParseUrl "   " =
      .error "Invalid source URL: Empty string" ∧
    validateSource sampleParseUrl "nota url" =
      .error "Invalid source URL: URL constructor error" ∧
    validateSource sampleParseUrl " urn:isbn:1 " =
      .error "Invalid source URL: URL parsing error" ∧
    validateSource sampleParseUrl " https://example.org/d " =
      .ok "https://example.org/d" :=
  ⟨c10_validateSource_spec.1 sampleParseUrl "   " (by decide),
    c10_validateSource_spec.2.1 sampleParseUrl "nota url"
      (by decide) (by decide),
    c10_validateSource_spec.2.2.1 sampleParseUrl " urn:isbn:1 "
      (by decide) (by decide),
    c10_validateSource_spec.2.2.2 sampleParseUrl " https://example.org/d "
      "https://example.org/d" (by decide) (by decide) (by decide)⟩

end Flexpress
